import Mathlib

/-!
Shallow embedding of `src/wayland/shell/xdg/decoration.rs` (smithay):
the XDG decoration manager created by `init_xdg_decoration_manager`.

Protocol resources (`ZxdgToplevelDecorationV1` handles) and toplevel surfaces
are identified by natural numbers.  The dispatch logic of the manager filter
(lines 84-145 of the source) is modelled as state-transition functions on a
`ServerState`:
* `userData w` models `toplevel.as_ref().user_data().get::<ShellSurfaceUserData>()`
  for toplevel `w`: `none` when the toplevel carries no `ShellSurfaceUserData`,
  `some u` where `u.decoration` is the `RefCell<Option<ZxdgToplevelDecorationV1>>`
  association slot.
* `handles i` records what the dispatch code installed on decoration handle `i`:
  the toplevel captured by `quick_assign` (if any), the toplevel captured by the
  destructor filter, and whether the resource has been destroyed.
* `events` is the ordered log of invocations of the policy callback `cb`
  (each element one `XdgDecorationRequest` value, appended synchronously
  inside the request handler, in request order).
* `errors` is the ordered log of `post_error` calls: handle id, error code
  (`Error::AlreadyConstructed as u32 = 1`) and message.
-/

namespace XdgDecoration

/-- Decoration modes of `zxdg_toplevel_decoration_v1::Mode` (wire values 1 and 2). -/
inductive Mode where
  | ServerSide
  | ClientSide
deriving DecidableEq, Repr

/-- Events generated by the xdg decoration manager and delivered to the policy
callback; mirrors the Rust enum `XdgDecorationRequest` (source lines 48-66),
with the `ToplevelSurface` payload represented by the toplevel's identity. -/
inductive XdgDecorationRequest where
  | NewToplevelDecoration (toplevel : Nat)
  | SetMode (toplevel : Nat) (mode : Mode)
  | UnsetMode (toplevel : Nat)
deriving DecidableEq, Repr

/-- Protocol errors of `zxdg_toplevel_decoration_v1::Error`. -/
inductive ZxdgToplevelDecorationError where
  | UnconfiguredBuffer
  | AlreadyConstructed
  | Orphaned
deriving DecidableEq, Repr

/-- Wire value of an error, as in `Error::AlreadyConstructed as u32`. -/
def ZxdgToplevelDecorationError.asU32 : ZxdgToplevelDecorationError → Nat
  | .UnconfiguredBuffer => 0
  | .AlreadyConstructed => 1
  | .Orphaned => 2

/-- The part of `ShellSurfaceUserData` this module touches: the
`decoration: RefCell<Option<ZxdgToplevelDecorationV1>>` association slot,
holding at most one decoration-handle id. -/
structure ShellSurfaceUserData where
  decoration : Option Nat
deriving DecidableEq, Repr

/-- What the dispatch code has installed on one `ZxdgToplevelDecorationV1`
resource: `relayToplevel` is the toplevel captured by the `quick_assign`
relay closure (source lines 111-130), `none` when no request filter was
assigned; `dtorToplevel` is the toplevel moved into the destructor filter
(source lines 133-141); `destroyed` marks that the transport ran the
destructor. -/
structure HandleState where
  relayToplevel : Option Nat
  dtorToplevel : Nat
  destroyed : Bool
deriving DecidableEq, Repr

/-- The state visible to this module: window user data, decoration-handle
bookkeeping, the policy-callback event log, and the `post_error` log. -/
structure ServerState where
  userData : Nat → Option ShellSurfaceUserData
  handles : Nat → Option HandleState
  events : List XdgDecorationRequest
  errors : List (Nat × Nat × String)

/-- Functional update of the association slot inside window `w`'s user data. -/
def setDecorationSlot (f : Nat → Option ShellSurfaceUserData) (w : Nat)
    (d : Option Nat) : Nat → Option ShellSurfaceUserData :=
  fun t => if t = w then some { decoration := d } else f t

/-- Functional update of the bookkeeping for handle `i`. -/
def setHandle (f : Nat → Option HandleState) (i : Nat) (h : HandleState) :
    Nat → Option HandleState :=
  fun j => if j = i then some h else f j

/-- The message passed to `post_error` at source line 95. -/
def alreadyConstructedMsg : String := "toplevel decoration is already constructed"

/-- Handler of `zxdg_decoration_manager_v1::Request::GetToplevelDecoration`
(source lines 89-142), for new handle `id` targeting toplevel `toplevel`:
* if the toplevel has `ShellSurfaceUserData`:
  - empty slot: store the new handle in the slot (line 92); otherwise
    `post_error(AlreadyConstructed, ...)` on the new handle (line 95);
  - in both cases invoke the policy callback with
    `NewToplevelDecoration` (lines 103-108) and `quick_assign` the
    SetMode/UnsetMode relay to the handle (lines 110-130);
* in all cases `assign_destructor` to the handle, capturing `toplevel`
  (lines 133-141). -/
def getToplevelDecoration (s : ServerState) (id toplevel : Nat) : ServerState :=
  match s.userData toplevel with
  | some data =>
    let s1 :=
      if data.decoration = none then
        { s with userData := setDecorationSlot s.userData toplevel (some id) }
      else
        { s with errors := s.errors ++
            [(id, ZxdgToplevelDecorationError.AlreadyConstructed.asU32,
              alreadyConstructedMsg)] }
    let s2 := { s1 with events :=
        s1.events ++ [XdgDecorationRequest.NewToplevelDecoration toplevel] }
    { s2 with handles := setHandle s2.handles id ⟨some toplevel, toplevel, false⟩ }
  | none =>
    { s with handles := setHandle s.handles id ⟨none, toplevel, false⟩ }

/-- Dispatch of `zxdg_toplevel_decoration_v1::Request::SetMode` on handle `id`
(source lines 112-120): if the relay closure was assigned to the handle and the
resource is alive, the captured toplevel and the request's mode are passed
through to the policy callback as `SetMode`; otherwise no filter consumes the
request and nothing happens. -/
def setMode (s : ServerState) (id : Nat) (mode : Mode) : ServerState :=
  match s.handles id with
  | some h =>
    if h.destroyed then s
    else
      match h.relayToplevel with
      | some t => { s with events := s.events ++ [XdgDecorationRequest.SetMode t mode] }
      | none => s
  | none => s

/-- Dispatch of `zxdg_toplevel_decoration_v1::Request::UnsetMode` on handle `id`
(source lines 121-128): relayed as `UnsetMode` with the captured toplevel under
the same conditions as `setMode`. -/
def unsetMode (s : ServerState) (id : Nat) : ServerState :=
  match s.handles id with
  | some h =>
    if h.destroyed then s
    else
      match h.relayToplevel with
      | some t => { s with events := s.events ++ [XdgDecorationRequest.UnsetMode t] }
      | none => s
  | none => s

/-- Body of the destructor filter assigned at source lines 133-141, with the
captured toplevel: if the toplevel has `ShellSurfaceUserData`, set its
`decoration` slot to `None` unconditionally; otherwise do nothing.  No event
and no error is produced. -/
def decorationDestructor (s : ServerState) (toplevel : Nat) : ServerState :=
  match s.userData toplevel with
  | some _ => { s with userData := setDecorationSlot s.userData toplevel none }
  | none => s

/-- Transport-driven destruction of decoration resource `id`: runs the
destructor filter once (with its captured toplevel) and marks the resource
destroyed.  Destroying an unknown or already-destroyed resource does
nothing (the transport invokes a destructor at most once). -/
def destroyDecoration (s : ServerState) (id : Nat) : ServerState :=
  match s.handles id with
  | some h =>
    if h.destroyed then s
    else
      let s1 := decorationDestructor s h.dtorToplevel
      { s1 with handles := setHandle s1.handles id ⟨h.relayToplevel, h.dtorToplevel, true⟩ }
  | none => s

/-- Handler of `zxdg_decoration_manager_v1::Request::Destroy` (source lines
86-88): everything is handled by the destructor, so this is a no-op. -/
def managerDestroy (s : ServerState) : ServerState := s

/-- One deliverable protocol action, as decoded by the transport layer. -/
inductive ProtoAction where
  | GetToplevelDecoration (id : Nat) (toplevel : Nat)
  | SetMode (id : Nat) (mode : Mode)
  | UnsetMode (id : Nat)
  | DestroyDecoration (id : Nat)
  | ManagerDestroy
deriving DecidableEq, Repr

/-- Dispatch one action to the corresponding handler. -/
def dispatch (s : ServerState) : ProtoAction → ServerState
  | .GetToplevelDecoration id toplevel => getToplevelDecoration s id toplevel
  | .SetMode id mode => setMode s id mode
  | .UnsetMode id => unsetMode s id
  | .DestroyDecoration id => destroyDecoration s id
  | .ManagerDestroy => managerDestroy s

/-- Sequential, in-order dispatch of a list of actions (the single-threaded
event loop). -/
def run (s : ServerState) : List ProtoAction → ServerState
  | [] => s
  | a :: rest => run (dispatch s a) rest

/-- Initial state for concrete scenarios: toplevel 0 carries
`ShellSurfaceUserData` with an empty decoration slot, no decoration handles
exist, no events or errors were produced. -/
def initState : ServerState where
  userData := fun t => if t = 0 then some { decoration := none } else none
  handles := fun _ => none
  events := []
  errors := []

/-- A decoration handle is live and request-capable: the resource exists, was
not destroyed, and has the SetMode/UnsetMode relay assigned for toplevel `w`. -/
def liveRequestCapable (s : ServerState) (id w : Nat) : Bool :=
  match s.handles id with
  | some h => !h.destroyed && h.relayToplevel == some w
  | none => false

end XdgDecoration

namespace XdgDecoration

/-! Theorems.  `initState` has toplevel 0 carrying `ShellSurfaceUserData` with
an empty decoration slot; decoration handles are numbered 1, 2, 3. -/

/-- Claim C1: for a `GetToplevelDecoration` request targeting a window that
already has a live decoration object, the handler posts `already_constructed`
on the new handle and delivers no event to the policy callback.  The first
half holds, but the second fails on the code: after `post_error` at source
line 95, lines 98-108 still run and invoke the policy callback with
`NewToplevelDecoration`.  This theorem evaluates the code at the failing
input: window 0 already holds handle 1; the request for handle 2 posts the
error and a second `NewToplevelDecoration` event is nevertheless delivered. -/
theorem C1_already_constructed_still_delivers_event :
    (run initState [ProtoAction.GetToplevelDecoration 1 0,
      ProtoAction.GetToplevelDecoration 2 0]).errors =
      [(2, ZxdgToplevelDecorationError.AlreadyConstructed.asU32, alreadyConstructedMsg)] ∧
    (run initState [ProtoAction.GetToplevelDecoration 1 0,
      ProtoAction.GetToplevelDecoration 2 0]).events =
      [XdgDecorationRequest.NewToplevelDecoration 0,
       XdgDecorationRequest.NewToplevelDecoration 0] :=
  ⟨rfl, rfl⟩

/-- Claim C2: at most one live, request-capable decoration object is
associated with a window at any time, under any sequence of requests and
destructions.  This fails on the code: handle 1 is bound to window 0, handle
2 is rejected with `already_constructed`, yet destroying handle 2 clears
window 0's association slot (the destructor at source lines 133-141 clears
unconditionally), so a third request succeeds while handle 1 is still live
and request-capable — two live decoration objects for window 0 at once. -/
theorem C2_two_live_decorations_for_same_window :
    (run initState [ProtoAction.GetToplevelDecoration 1 0]).userData 0 =
      some { decoration := some 1 } ∧
    (run initState [ProtoAction.GetToplevelDecoration 1 0,
      ProtoAction.GetToplevelDecoration 2 0, ProtoAction.DestroyDecoration 2,
      ProtoAction.GetToplevelDecoration 3 0]).userData 0 =
      some { decoration := some 3 } ∧
    liveRequestCapable (run initState [ProtoAction.GetToplevelDecoration 1 0,
      ProtoAction.GetToplevelDecoration 2 0, ProtoAction.DestroyDecoration 2,
      ProtoAction.GetToplevelDecoration 3 0]) 1 0 = true ∧
    liveRequestCapable (run initState [ProtoAction.GetToplevelDecoration 1 0,
      ProtoAction.GetToplevelDecoration 2 0, ProtoAction.DestroyDecoration 2,
      ProtoAction.GetToplevelDecoration 3 0]) 3 0 = true :=
  ⟨rfl, rfl, rfl, rfl⟩

/-- Claim C3: destroying a decoration handle that never became associated
with its window (one rejected with `already_constructed`) is a no-op on the
window's state.  This fails on the code: the destructor filter assigned at
source lines 133-141 sets the window's `decoration` slot to `None`
unconditionally, so destroying rejected handle 2 erases the association of
the still-live handle 1. -/
theorem C3_rejected_handle_destruction_clears_association :
    (run initState [ProtoAction.GetToplevelDecoration 1 0,
      ProtoAction.GetToplevelDecoration 2 0]).userData 0 =
      some { decoration := some 1 } ∧
    (run initState [ProtoAction.GetToplevelDecoration 1 0,
      ProtoAction.GetToplevelDecoration 2 0,
      ProtoAction.DestroyDecoration 2]).userData 0 =
      some { decoration := none } ∧
    liveRequestCapable (run initState [ProtoAction.GetToplevelDecoration 1 0,
      ProtoAction.GetToplevelDecoration 2 0,
      ProtoAction.DestroyDecoration 2]) 1 0 = true :=
  ⟨rfl, rfl, rfl⟩

/-- Claim C4: `SetMode`/`UnsetMode` requests on a decoration handle whose
creation was rejected with `already_constructed` are never relayed to the
policy callback.  This fails on the code: `quick_assign` at source lines
111-130 installs the relay on the new handle even in the rejected branch,
so a `SetMode` dispatched on rejected handle 2 is relayed as a `SetMode`
event for window 0 (and likewise `UnsetMode`). -/
theorem C4_rejected_handle_requests_still_relayed :
    (run initState [ProtoAction.GetToplevelDecoration 1 0,
      ProtoAction.GetToplevelDecoration 2 0,
      ProtoAction.SetMode 2 Mode.ServerSide, ProtoAction.UnsetMode 2]).errors =
      [(2, ZxdgToplevelDecorationError.AlreadyConstructed.asU32, alreadyConstructedMsg)] ∧
    (run initState [ProtoAction.GetToplevelDecoration 1 0,
      ProtoAction.GetToplevelDecoration 2 0,
      ProtoAction.SetMode 2 Mode.ServerSide, ProtoAction.UnsetMode 2]).events =
      [XdgDecorationRequest.NewToplevelDecoration 0,
       XdgDecorationRequest.NewToplevelDecoration 0,
       XdgDecorationRequest.SetMode 0 Mode.ServerSide,
       XdgDecorationRequest.UnsetMode 0] :=
  ⟨rfl, rfl⟩

end XdgDecoration

namespace XdgDecoration

/-- Claim C5: a `GetToplevelDecoration` request for a window whose association
slot is occupied posts `already_constructed` on the new handle and mutates no
window state: every window's user data — in particular the slot, still holding
the previously bound decoration — is unchanged, the error log grows by exactly
the `already_constructed` entry, and the only handle touched is the new one
(destructor and relay installed on it, as the code does unconditionally). -/
theorem C5_bind_fails_without_mutation_when_slot_occupied
    (s : ServerState) (w d id : Nat)
    (hw : s.userData w = some { decoration := some d }) :
    (getToplevelDecoration s id w).userData w = some { decoration := some d } ∧
    (getToplevelDecoration s id w).userData = s.userData ∧
    (getToplevelDecoration s id w).errors = s.errors ++
      [(id, ZxdgToplevelDecorationError.AlreadyConstructed.asU32, alreadyConstructedMsg)] ∧
    (getToplevelDecoration s id w).handles =
      setHandle s.handles id ⟨some w, w, false⟩ := by
  simp [getToplevelDecoration, hw]

/-- Claim C5, witness: window 0 already holds handle 1 after the first request;
the second request for handle 2 fails with `already_constructed` and leaves
window 0's slot holding handle 1. -/
theorem C5_bind_fails_witness :
    (getToplevelDecoration (run initState [ProtoAction.GetToplevelDecoration 1 0]) 2 0).userData 0 =
      some { decoration := some 1 } ∧
    (getToplevelDecoration (run initState [ProtoAction.GetToplevelDecoration 1 0]) 2 0).userData =
      (run initState [ProtoAction.GetToplevelDecoration 1 0]).userData ∧
    (getToplevelDecoration (run initState [ProtoAction.GetToplevelDecoration 1 0]) 2 0).errors =
      (run initState [ProtoAction.GetToplevelDecoration 1 0]).errors ++
      [(2, ZxdgToplevelDecorationError.AlreadyConstructed.asU32, alreadyConstructedMsg)] ∧
    (getToplevelDecoration (run initState [ProtoAction.GetToplevelDecoration 1 0]) 2 0).handles =
      setHandle (run initState [ProtoAction.GetToplevelDecoration 1 0]).handles 2 ⟨some 0, 0, false⟩ :=
  C5_bind_fails_without_mutation_when_slot_occupied
    (run initState [ProtoAction.GetToplevelDecoration 1 0]) 0 1 2 rfl

/-- Claim C6: for a window with user data and an empty slot, the request
sequence `get_toplevel_decoration`, `set_mode(ServerSide)`, `unset_mode` on
the resulting handle appends exactly the events `NewToplevelDecoration`,
`SetMode ServerSide`, `UnsetMode` for that window, in order, with no extra
or missing events (each appended by its own handler before it returns), and
posts no error. -/
theorem C6_event_ordering_exact_trace (s : ServerState) (w id : Nat)
    (hw : s.userData w = some { decoration := none }) :
    (run s [ProtoAction.GetToplevelDecoration id w,
      ProtoAction.SetMode id Mode.ServerSide, ProtoAction.UnsetMode id]).events =
      s.events ++ [XdgDecorationRequest.NewToplevelDecoration w,
        XdgDecorationRequest.SetMode w Mode.ServerSide,
        XdgDecorationRequest.UnsetMode w] ∧
    (run s [ProtoAction.GetToplevelDecoration id w,
      ProtoAction.SetMode id Mode.ServerSide, ProtoAction.UnsetMode id]).errors =
      s.errors := by
  simp [run, dispatch, getToplevelDecoration, setMode, unsetMode, hw, setHandle]

/-- Claim C6, witness: from the initial state the three requests on window 0
and handle 1 produce exactly the three events in order and no error. -/
theorem C6_event_ordering_witness :
    (run initState [ProtoAction.GetToplevelDecoration 1 0,
      ProtoAction.SetMode 1 Mode.ServerSide, ProtoAction.UnsetMode 1]).events =
      initState.events ++ [XdgDecorationRequest.NewToplevelDecoration 0,
        XdgDecorationRequest.SetMode 0 Mode.ServerSide,
        XdgDecorationRequest.UnsetMode 0] ∧
    (run initState [ProtoAction.GetToplevelDecoration 1 0,
      ProtoAction.SetMode 1 Mode.ServerSide, ProtoAction.UnsetMode 1]).errors =
      initState.errors :=
  C6_event_ordering_exact_trace initState 0 1 rfl

end XdgDecoration

namespace XdgDecoration

/-- Claim C7: destroying the decoration handle bound to a window (its
destructor filter captured that window) clears the window's association slot,
and a subsequent `GetToplevelDecoration` for the same window takes the
empty-slot branch: the new handle is recorded in the slot, no error is
posted by either step, and a `NewToplevelDecoration` event is emitted for
the window. -/
theorem C7_reassociation_after_destruction
    (s : ServerState) (d w id2 : Nat) (r : Option Nat) (u : ShellSurfaceUserData)
    (hd : s.handles d = some ⟨r, w, false⟩)
    (hw : s.userData w = some u) :
    (destroyDecoration s d).userData w = some { decoration := none } ∧
    (getToplevelDecoration (destroyDecoration s d) id2 w).userData w =
      some { decoration := some id2 } ∧
    (getToplevelDecoration (destroyDecoration s d) id2 w).errors = s.errors ∧
    (getToplevelDecoration (destroyDecoration s d) id2 w).events =
      s.events ++ [XdgDecorationRequest.NewToplevelDecoration w] := by
  simp [destroyDecoration, decorationDestructor, getToplevelDecoration, hd, hw,
    setDecorationSlot, setHandle]

/-- Claim C7, witness: destroying handle 1 (bound to window 0) and then
requesting handle 2 for window 0 succeeds with a fresh event and no error. -/
theorem C7_reassociation_witness :
    (destroyDecoration (run initState [ProtoAction.GetToplevelDecoration 1 0]) 1).userData 0 =
      some { decoration := none } ∧
    (getToplevelDecoration (destroyDecoration
        (run initState [ProtoAction.GetToplevelDecoration 1 0]) 1) 2 0).userData 0 =
      some { decoration := some 2 } ∧
    (getToplevelDecoration (destroyDecoration
        (run initState [ProtoAction.GetToplevelDecoration 1 0]) 1) 2 0).errors =
      (run initState [ProtoAction.GetToplevelDecoration 1 0]).errors ∧
    (getToplevelDecoration (destroyDecoration
        (run initState [ProtoAction.GetToplevelDecoration 1 0]) 1) 2 0).events =
      (run initState [ProtoAction.GetToplevelDecoration 1 0]).events ++
        [XdgDecorationRequest.NewToplevelDecoration 0] :=
  C7_reassociation_after_destruction
    (run initState [ProtoAction.GetToplevelDecoration 1 0]) 1 0 2 (some 0)
    { decoration := some 1 } rfl rfl

/-- Evaluation of the slot update at the window it updates. -/
theorem setDecorationSlot_self (f : Nat → Option ShellSurfaceUserData) (w : Nat)
    (d : Option Nat) : setDecorationSlot f w d w = some { decoration := d } := by
  simp [setDecorationSlot]

/-- Unfolding of the destructor body when the toplevel has user data. -/
theorem decorationDestructor_eq_of_userData (s : ServerState) (w : Nat)
    (u : ShellSurfaceUserData) (hw : s.userData w = some u) :
    decorationDestructor s w = { s with userData := setDecorationSlot s.userData w none } := by
  simp [decorationDestructor, hw]

/-- Claim C8: the destructor logic is idempotent.  For a window with user
data it clears the association slot unconditionally; running it a second
time is exactly the identity on the already-cleared state, and it posts no
error and emits no event. -/
theorem C8_destructor_idempotent
    (s : ServerState) (w : Nat) (u : ShellSurfaceUserData)
    (hw : s.userData w = some u) :
    (decorationDestructor s w).userData w = some { decoration := none } ∧
    decorationDestructor (decorationDestructor s w) w = decorationDestructor s w ∧
    (decorationDestructor s w).errors = s.errors ∧
    (decorationDestructor s w).events = s.events := by
  have h1 := decorationDestructor_eq_of_userData s w u hw
  have h2 : (decorationDestructor s w).userData w = some { decoration := none } := by
    rw [h1]; exact setDecorationSlot_self _ _ _
  refine ⟨h2, ?_, by rw [h1], by rw [h1]⟩
  have h3 := decorationDestructor_eq_of_userData (decorationDestructor s w) w _ h2
  rw [h3, h1]
  congr 1
  funext t
  by_cases ht : t = w <;> simp [setDecorationSlot, ht]

/-- Claim C8, witness: clearing window 0's slot twice after handle 1 was
bound raises nothing and leaves the slot empty. -/
theorem C8_destructor_idempotent_witness :
    (decorationDestructor (run initState [ProtoAction.GetToplevelDecoration 1 0]) 0).userData 0 =
      some { decoration := none } ∧
    decorationDestructor (decorationDestructor
        (run initState [ProtoAction.GetToplevelDecoration 1 0]) 0) 0 =
      decorationDestructor (run initState [ProtoAction.GetToplevelDecoration 1 0]) 0 ∧
    (decorationDestructor (run initState [ProtoAction.GetToplevelDecoration 1 0]) 0).errors =
      (run initState [ProtoAction.GetToplevelDecoration 1 0]).errors ∧
    (decorationDestructor (run initState [ProtoAction.GetToplevelDecoration 1 0]) 0).events =
      (run initState [ProtoAction.GetToplevelDecoration 1 0]).events :=
  C8_destructor_idempotent (run initState [ProtoAction.GetToplevelDecoration 1 0]) 0
    { decoration := some 1 } rfl

end XdgDecoration

namespace XdgDecoration

/-- Claim C9: on a live decoration handle with the relay assigned for window
`w`, a `SetMode` request is relayed as exactly one `SetMode` event carrying
`w` and the request's mode unchanged, and an `UnsetMode` request as exactly
one `UnsetMode` event carrying `w`; neither handler validates or stores the
mode — window user data, handle bookkeeping and the error log are untouched,
for every mode value. -/
theorem C9_mode_pass_through_unchanged
    (s : ServerState) (id w dt : Nat) (mode : Mode)
    (hd : s.handles id = some ⟨some w, dt, false⟩) :
    (setMode s id mode).events = s.events ++ [XdgDecorationRequest.SetMode w mode] ∧
    (setMode s id mode).userData = s.userData ∧
    (setMode s id mode).handles = s.handles ∧
    (setMode s id mode).errors = s.errors ∧
    (unsetMode s id).events = s.events ++ [XdgDecorationRequest.UnsetMode w] ∧
    (unsetMode s id).userData = s.userData ∧
    (unsetMode s id).handles = s.handles ∧
    (unsetMode s id).errors = s.errors := by
  simp [setMode, unsetMode, hd]

/-- Claim C9, witness: on handle 1 bound to window 0, `SetMode ClientSide`
and `UnsetMode` are relayed verbatim and change nothing else. -/
theorem C9_mode_pass_through_witness :
    (setMode (run initState [ProtoAction.GetToplevelDecoration 1 0]) 1 Mode.ClientSide).events =
      (run initState [ProtoAction.GetToplevelDecoration 1 0]).events ++
        [XdgDecorationRequest.SetMode 0 Mode.ClientSide] ∧
    (setMode (run initState [ProtoAction.GetToplevelDecoration 1 0]) 1 Mode.ClientSide).userData =
      (run initState [ProtoAction.GetToplevelDecoration 1 0]).userData ∧
    (setMode (run initState [ProtoAction.GetToplevelDecoration 1 0]) 1 Mode.ClientSide).handles =
      (run initState [ProtoAction.GetToplevelDecoration 1 0]).handles ∧
    (setMode (run initState [ProtoAction.GetToplevelDecoration 1 0]) 1 Mode.ClientSide).errors =
      (run initState [ProtoAction.GetToplevelDecoration 1 0]).errors ∧
    (unsetMode (run initState [ProtoAction.GetToplevelDecoration 1 0]) 1).events =
      (run initState [ProtoAction.GetToplevelDecoration 1 0]).events ++
        [XdgDecorationRequest.UnsetMode 0] ∧
    (unsetMode (run initState [ProtoAction.GetToplevelDecoration 1 0]) 1).userData =
      (run initState [ProtoAction.GetToplevelDecoration 1 0]).userData ∧
    (unsetMode (run initState [ProtoAction.GetToplevelDecoration 1 0]) 1).handles =
      (run initState [ProtoAction.GetToplevelDecoration 1 0]).handles ∧
    (unsetMode (run initState [ProtoAction.GetToplevelDecoration 1 0]) 1).errors =
      (run initState [ProtoAction.GetToplevelDecoration 1 0]).errors :=
  C9_mode_pass_through_unchanged (run initState [ProtoAction.GetToplevelDecoration 1 0])
    1 0 0 Mode.ClientSide rfl

/-- Claim C10: a `GetToplevelDecoration` whose target toplevel carries no
`ShellSurfaceUserData` is silently dropped: no event is delivered, no error
is posted, no window state changes, and the new handle gets no SetMode or
UnsetMode relay (`relayToplevel = none`) — only the destructor is
registered, and that destructor is a no-op on such a toplevel. -/
theorem C10_missing_user_data_silently_dropped
    (s : ServerState) (id w : Nat) (hw : s.userData w = none) :
    (getToplevelDecoration s id w).events = s.events ∧
    (getToplevelDecoration s id w).errors = s.errors ∧
    (getToplevelDecoration s id w).userData = s.userData ∧
    (getToplevelDecoration s id w).handles = setHandle s.handles id ⟨none, w, false⟩ ∧
    (getToplevelDecoration s id w).handles id = some ⟨none, w, false⟩ ∧
    decorationDestructor (getToplevelDecoration s id w) w = getToplevelDecoration s id w := by
  have h1 : getToplevelDecoration s id w =
      { s with handles := setHandle s.handles id ⟨none, w, false⟩ } := by
    simp [getToplevelDecoration, hw]
  refine ⟨by rw [h1], by rw [h1], by rw [h1], by rw [h1], ?_, ?_⟩
  · rw [h1]; simp [setHandle]
  · have h2 : (getToplevelDecoration s id w).userData w = none := by rw [h1]; exact hw
    simp [decorationDestructor, h2]

/-- Claim C10, witness: toplevel 5 carries no user data in the initial state;
the request for handle 1 produces no event and no error, assigns only the
destructor, and that destructor does nothing. -/
theorem C10_missing_user_data_witness :
    (getToplevelDecoration initState 1 5).events = initState.events ∧
    (getToplevelDecoration initState 1 5).errors = initState.errors ∧
    (getToplevelDecoration initState 1 5).userData = initState.userData ∧
    (getToplevelDecoration initState 1 5).handles = setHandle initState.handles 1 ⟨none, 5, false⟩ ∧
    (getToplevelDecoration initState 1 5).handles 1 = some ⟨none, 5, false⟩ ∧
    decorationDestructor (getToplevelDecoration initState 1 5) 5 = getToplevelDecoration initState 1 5 :=
  C10_missing_user_data_silently_dropped initState 1 5 rfl

end XdgDecoration
